import Mathlib

set_option autoImplicit false

/-!
Shallow embedding of `src/总结/scripts/summarize.py`, a command-line file
summarizer.  Pure computations (prompt selection, truncation, request
construction, encoding fallback) are modelled as Lean functions; the
orchestration in `main` is modelled as a pure function from an abstract
world (environment variables, file-system facts, remote-API oracle) to an
exit code together with an ordered trace of observable events (file
accesses, network calls, stdout lines, stderr lines).
-/

/-- A chat message as built by `summarize_content` (lines 153-156): a role
tag and the message text (modelled as a list of characters, matching
Python's per-character string semantics). -/
structure ChatMessage where
  role : String
  content : List Char
deriving DecidableEq

/-- The request `summarize_content` passes to
`client.chat.completions.create` (lines 151-158): model identifier, the
ordered message list and the sampling temperature. -/
structure ChatRequest where
  model : String
  messages : List ChatMessage
  temperature : ℚ
deriving DecidableEq

/-- Observable events of one program run: a file-system access of a path, a
network call carrying the request, a stdout line, a stderr line. -/
inductive Ev where
  | fileAccess (p : String)
  | netCall (req : ChatRequest)
  | out (s : String)
  | err (s : String)
deriving DecidableEq

/-- Parsed command-line arguments (lines 191-199): optional positional
`file_path`, `--detail` (default "medium"), `--model` (default
"gpt-4o-mini"), `--check-config`. -/
structure Args where
  file_path : Option String
  detail : String
  model : String
  check_config : Bool

/-- The process environment: the one variable the program reads,
`OPENAI_API_KEY` (`none` = unset, `some s` = set to `s`). -/
structure Env where
  openai_api_key : Option String

/-- Facts about the path the program is asked to read: existence, whether
it is a regular file, its extension, its raw bytes (for the text path), and
the text units the external PDF / Word libraries would extract from it. -/
structure FS where
  pathExists : Bool
  isFile : Bool
  suffix : String
  bytes : List Nat
  pdfPages : List (List Char)
  docxParas : List (List Char)

/-- The abstract world a run observes: environment, file system, whether
the `openai` package is importable, and the remote completion oracle
(`none` = the API call raises, with `apiFailureMsg` the exception text;
`some s` = the API returns summary `s`). -/
structure World where
  env : Env
  fs : FS
  openaiAvailable : Bool
  apiResponse : Option (List Char)
  apiFailureMsg : String

/-- Python truthiness of `os.environ.get(...)`: `None` and the empty string
are falsy, every other string is truthy (used at lines 30 and 204:
`if not api_key:` / `if api_key:`). -/
def pyTruthy : Option String → Bool
  | none => false
  | some k => k != ""

/-- Python's `str.lower`, modelled per character (line 100:
`file_path.suffix.lower()`). -/
def lowerStr (s : String) : String := String.mk (s.data.map Char.toLower)

/-- Python's `str.upper`, modelled per character (line 247:
`args.detail.upper()`). -/
def upperStr (s : String) : String := String.mk (s.data.map Char.toUpper)

/-- The characters Python's `str.strip()` removes (line 232
`content.strip()`): exactly the code points where `str.isspace()` holds —
U+0009-U+000D, U+001C-U+001F, the space, U+0085 (NEL), U+00A0 (NBSP),
U+1680, U+2000-U+200A, U+2028, U+2029, U+202F, U+205F and U+3000. -/
def isPySpace (c : Char) : Bool :=
  let n := c.toNat
  (decide (9 ≤ n) && decide (n ≤ 13)) || (decide (28 ≤ n) && decide (n ≤ 32))
    || n = 133 || n = 160 || n = 0x1680
    || (decide (0x2000 ≤ n) && decide (n ≤ 0x200A))
    || n = 0x2028 || n = 0x2029 || n = 0x202F || n = 0x205F || n = 0x3000

/-- Whether `not content.strip()` holds: the content is empty or all
whitespace (line 232). -/
def isBlank (content : List Char) : Bool := content.all isPySpace

/-- Python's `'\n\n'.join(parts)` (lines 64 and 79). -/
def joinBlank (parts : List (List Char)) : List Char :=
  List.intercalate "\n\n".data parts

/-- The system prompt table of `get_system_prompt` (lines 116-135): a
three-entry map from detail level to instruction text, with
`prompts.get(detail_level, prompts['medium'])` falling back to the medium
entry on any other key. -/
def get_system_prompt (detail_level : String) : String :=
  if detail_level = "brief" then
    "You are a professional summarizer. Provide a concise summary in 2-3 sentences \nhighlighting only the most critical points. Be direct and factual."
  else if detail_level = "medium" then
    "You are a professional summarizer. Provide a clear summary in one well-structured \nparagraph covering the main ideas, key takeaways, and most important information. \nBe comprehensive but concise."
  else if detail_level = "detailed" then
    "You are a professional summarizer. Provide a comprehensive summary with \nmultiple paragraphs covering:\n1. Main themes and purpose\n2. Key points and arguments\n3. Important details and structure\n4. Conclusions or outcomes\nBe thorough while maintaining clarity."
  else
    "You are a professional summarizer. Provide a clear summary in one well-structured \nparagraph covering the main ideas, key takeaways, and most important information. \nBe comprehensive but concise."

/-- `max_chars = 100000` (line 144). -/
def max_chars : Nat := 100000

/-- The literal appended after truncation (line 147). -/
def truncationMarker : List Char := "\n\n[Content truncated...]".data

/-- The input-size policy of `summarize_content` (lines 145-147):
`content[:max_chars] + "\n\n[Content truncated...]"` when
`len(content) > max_chars`, the content unchanged otherwise. -/
def truncateContent (content : List Char) : List Char :=
  if content.length > max_chars then content.take max_chars ++ truncationMarker
  else content

/-- The fixed literal prefix of the user message (line 155:
`f"Please summarize the following content:\n\n{content}"`). -/
def userContentLead : List Char := "Please summarize the following content:\n\n".data

/-- The request `summarize_content` constructs (lines 149-158): exactly two
ordered messages — the system prompt for the level, then the user prefix
followed by the (possibly truncated) content — with the given model and
temperature 0.3. -/
def buildRequest (content : List Char) (detail_level model : String) : ChatRequest :=
  { model := model
    messages :=
      [{ role := "system", content := (get_system_prompt detail_level).data },
       { role := "user", content := userContentLead ++ truncateContent content }]
    temperature := 3 / 10 }

/-- Whether a byte is a UTF-8 continuation byte (10xxxxxx). -/
def utf8Cont (b : Nat) : Bool := 128 ≤ b && b < 192

/-- Strict UTF-8 decoding of a byte sequence to code points, as Python's
`utf-8` codec performs it at line 44: rejects stray continuation bytes,
overlong forms, surrogate code points and values above U+10FFFF; `none`
models a raised `UnicodeDecodeError`.  (The codec is an external
collaborator of the script; this models its strict mode.) -/
def utf8Decode : List Nat → Option (List Char)
  | [] => some []
  | b :: rest =>
    if b < 128 then
      (utf8Decode rest).map (fun s => Char.ofNat b :: s)
    else if b < 194 then none
    else if b < 224 then
      match rest with
      | b1 :: rest1 =>
        if utf8Cont b1 then
          (utf8Decode rest1).map (fun s => Char.ofNat ((b - 192) * 64 + (b1 - 128)) :: s)
        else none
      | _ => none
    else if b < 240 then
      match rest with
      | b1 :: b2 :: rest2 =>
        if utf8Cont b1 && utf8Cont b2
            && (b != 224 || decide (160 ≤ b1)) && (b != 237 || decide (b1 < 160)) then
          (utf8Decode rest2).map
            (fun s => Char.ofNat ((b - 224) * 4096 + (b1 - 128) * 64 + (b2 - 128)) :: s)
        else none
      | _ => none
    else if b < 245 then
      match rest with
      | b1 :: b2 :: b3 :: rest3 =>
        if utf8Cont b1 && utf8Cont b2 && utf8Cont b3
            && (b != 240 || decide (144 ≤ b1)) && (b != 244 || decide (b1 < 144)) then
          (utf8Decode rest3).map
            (fun s =>
              Char.ofNat
                ((b - 240) * 262144 + (b1 - 128) * 4096 + (b2 - 128) * 64 + (b3 - 128)) :: s)
        else none
      | _ => none
    else none

/-- Python's `latin-1` codec at line 44: total — every byte maps to the
code point of the same value, so decoding never raises. -/
def latin1Decode (bs : List Nat) : Option (List Char) :=
  some (bs.map Char.ofNat)

/-- The five byte values Python's `cp1252` codec leaves undefined (it
raises on them in strict mode). -/
def cp1252Undefined (b : Nat) : Bool :=
  b = 129 || b = 141 || b = 143 || b = 144 || b = 157

/-- The Windows-1252 byte-to-code-point table: bytes 0x80-0x9F map to their
Windows-1252 characters, every other byte to itself. -/
def cp1252Map (b : Nat) : Nat :=
  if b = 128 then 0x20AC else if b = 130 then 0x201A else if b = 131 then 0x192
  else if b = 132 then 0x201E else if b = 133 then 0x2026 else if b = 134 then 0x2020
  else if b = 135 then 0x2021 else if b = 136 then 0x2C6 else if b = 137 then 0x2030
  else if b = 138 then 0x160 else if b = 139 then 0x2039 else if b = 140 then 0x152
  else if b = 142 then 0x17D else if b = 145 then 0x2018 else if b = 146 then 0x2019
  else if b = 147 then 0x201C else if b = 148 then 0x201D else if b = 149 then 0x2022
  else if b = 150 then 0x2013 else if b = 151 then 0x2014 else if b = 152 then 0x2DC
  else if b = 153 then 0x2122 else if b = 154 then 0x161 else if b = 155 then 0x203A
  else if b = 156 then 0x153 else if b = 158 then 0x17E else if b = 159 then 0x178
  else b

/-- Python's `cp1252` codec at line 44: raises (`none`) when any byte is
one of the five undefined values, otherwise maps bytes through the
Windows-1252 table. -/
def cp1252Decode (bs : List Nat) : Option (List Char) :=
  if bs.any cp1252Undefined then none
  else some (bs.map (fun b => Char.ofNat (cp1252Map b)))

/-- Python's `iso-8859-1` codec at line 44: an alias of `latin-1`, total. -/
def iso8859_1Decode (bs : List Nat) : Option (List Char) :=
  some (bs.map Char.ofNat)

/-- `read_text_file` (lines 38-53), restricted to its decode path: try the
fixed encoding list `['utf-8', 'latin-1', 'cp1252', 'iso-8859-1']` in
order, return the first successful decode; `none` models the
all-encodings-failed fall-through at lines 52-53.  (The generic I/O
exception handler at lines 48-50 concerns failures other than decoding and
is outside this byte-level model.) -/
def read_text_file (bs : List Nat) : Option (List Char) :=
  match utf8Decode bs with
  | some t => some t
  | none =>
    match latin1Decode bs with
    | some t => some t
    | none =>
      match cp1252Decode bs with
      | some t => some t
      | none =>
        match iso8859_1Decode bs with
        | some t => some t
        | none => none

/-- The compatibility warning printed for `.doc` files (line 109). -/
def docWarning : String :=
  "WARNING: .doc format may not be fully supported. Consider converting to .docx"

/-- `read_file` (lines 88-114): check existence then regular-file-ness
(each failure prints an ERROR line to stderr and yields no content), then
dispatch on the lower-cased extension: `.pdf` joins the extracted pages,
`.docx`/`.doc` joins the extracted paragraphs (with a warning for `.doc`),
anything else goes through the text-encoding fallback.  The result pairs
the extracted content (`none` = failure) with the ordered events: one
`fileAccess` for touching the path, plus the stderr diagnostics.  The
dependency-install path of `read_pdf`/`read_docx` is modelled separately
by `read_pdf_retry`; here the extraction libraries are available and their
per-unit output is the oracle in `FS`. -/
def read_file (p : String) (fs : FS) : Option (List Char) × List Ev :=
  if fs.pathExists = false then
    (none, [Ev.fileAccess p, Ev.err ("ERROR: File not found: " ++ p)])
  else if fs.isFile = false then
    (none, [Ev.fileAccess p, Ev.err ("ERROR: Path is not a file: " ++ p)])
  else if lowerStr fs.suffix = ".pdf" then
    (some (joinBlank fs.pdfPages), [Ev.fileAccess p])
  else if lowerStr fs.suffix = ".docx" ∨ lowerStr fs.suffix = ".doc" then
    (some (joinBlank fs.docxParas),
      if lowerStr fs.suffix = ".doc" then [Ev.err docWarning, Ev.fileAccess p]
      else [Ev.fileAccess p])
  else
    match read_text_file fs.bytes with
    | some t => (some t, [Ev.fileAccess p])
    | none =>
      (none, [Ev.fileAccess p, Ev.err "Unable to read file with common encodings"])

/-- `summarize_content` (lines 137-172) with the `openai` package
available: emit the truncation NOTE when the content exceeds the budget,
make the network call carrying the constructed request, and either return
the oracle's summary or (when the call raises) print the failure
diagnostics and return no result. -/
def summarize_run (content : List Char) (args : Args) (w : World) :
    Option (List Char) × List Ev :=
  let noteEvs :=
    if content.length > max_chars then
      [Ev.err ("NOTE: File is very large (" ++ toString content.length ++
        " chars). Truncating to " ++ toString max_chars ++ " chars.")]
    else []
  let callEv := Ev.netCall (buildRequest content args.detail args.model)
  match w.apiResponse with
  | some s => (some s, noteEvs ++ [callEv])
  | none =>
    (none, noteEvs ++ [callEv] ++
      [Ev.err ("ERROR: Failed to generate summary: " ++ w.apiFailureMsg),
       Ev.err "\nPlease check:",
       Ev.err "  1. Your API key is valid",
       Ev.err "  2. You have available API credits",
       Ev.err "  3. The OpenAI API service is accessible"])

/-- The stderr lines `get_api_key` prints before `sys.exit(1)` when the
credential is absent (lines 31-34). -/
def get_api_key_err : List Ev :=
  [Ev.err "ERROR: OPENAI_API_KEY environment variable not set.",
   Ev.err "\nPlease set your API key:",
   Ev.err "  export OPENAI_API_KEY='sk-...'",
   Ev.err "\nOr add to your shell profile (~/.bashrc or ~/.zshrc) for persistence."]

/-- The stdout lines of the `--check-config` branch when the key is absent
or empty (lines 212-214). -/
def keyNotSetEvs : List Ev :=
  [Ev.out "✗ OPENAI_API_KEY is not set",
   Ev.out "\nPlease set your API key:",
   Ev.out "  export OPENAI_API_KEY='sk-...'"]

/-- The `--check-config` branch of `main` (lines 202-215): report key
presence (Python truthiness) and, when the key is truthy, whether the
`openai` package imports; return 0 exactly when the key is truthy.  The
branch touches only the environment and stdout. -/
def checkConfigRun (key : Option String) (avail : Bool) : Nat × List Ev :=
  if pyTruthy key then
    (0, [Ev.out "✓ OPENAI_API_KEY is set",
         Ev.out (if avail then "✓ OpenAI package is available"
           else "✗ OpenAI package not installed (will auto-install when needed)")])
  else
    (1, keyNotSetEvs)

/-- The `="*60` separator line of the output block (lines 246-250). -/
def sep60 : String := String.mk (List.replicate 60 '=')

/-- The delimited stdout block printed on success (lines 246-250). -/
def outputBlock (detail : String) (summary : List Char) : List Ev :=
  [Ev.out ("\n" ++ sep60),
   Ev.out ("SUMMARY (" ++ upperStr detail ++ ")"),
   Ev.out (sep60 ++ "\n"),
   Ev.out (String.mk summary),
   Ev.out ("\n" ++ sep60)]

/-- Stands for the argparse-generated help text printed by
`parser.print_help()` at line 219 (generated by the external argparse
library; its exact wording is not modelled). -/
def usageText : String := "usage: summarize.py [-h] [--detail] [--model] [--check-config] file_path"

/-- The default summarization flow of `main` (lines 217-252): resolve the
credential (absence or emptiness prints guidance and exits 1 before any
file access), announce and read the file (read failure exits 1), reject
blank content (exit 1), then summarize and print the output block, exiting
0 on success and 1 when summarization fails. -/
def defaultRun (p : String) (args : Args) (w : World) : Nat × List Ev :=
  if pyTruthy w.env.openai_api_key = false then (1, get_api_key_err)
  else
    let pre := [Ev.err ("Reading file: " ++ p)]
    let r := read_file p w.fs
    match r.1 with
    | none => (1, pre ++ r.2)
    | some content =>
      if isBlank content then
        (1, pre ++ r.2 ++ [Ev.err "ERROR: File appears to be empty or unreadable"])
      else
        let info :=
          [Ev.err ("File size: " ++ toString content.length ++ " characters"),
           Ev.err ("Generating " ++ args.detail ++ " summary using " ++ args.model ++ "...")]
        let s := summarize_run content args w
        match s.1 with
        | none => (1, pre ++ r.2 ++ info ++ s.2)
        | some summary =>
          (0, pre ++ r.2 ++ info ++ s.2 ++ outputBlock args.detail summary)

/-- `main` (lines 174-252) as a pure function of the parsed arguments and
the world: `--check-config` short-circuits to the configuration report, a
missing positional argument prints the help text and exits 1, otherwise
the default summarization flow runs. -/
def runMain (args : Args) (w : World) : Nat × List Ev :=
  if args.check_config then checkConfigRun w.env.openai_api_key w.openaiAvailable
  else
    match args.file_path with
    | none => (1, [Ev.out usageText])
    | some p => defaultRun p args w

/-- Outcome of the install-and-retry recursion: the extracted text together
with how many import attempts were made, or divergence (the recursion
never returned within the given fuel). -/
inductive RetryOutcome where
  | ok (text : List Char) (attempts : Nat)
  | diverged
deriving DecidableEq

/-- The retry structure of `read_pdf` (lines 55-68): try to import PyPDF2;
on success extract and join the pages; on `ImportError` run the installer
and recursively call `read_pdf` again on the same path.  `importOk n` says
whether the import succeeds on the n-th attempt (installation may change
availability between attempts); the fuel argument makes the unbounded
recursion a total function, with `diverged` meaning the recursion did not
return within the fuel.  `summarize_content` (lines 162-165) and
`read_docx` (lines 80-83) recurse identically. -/
def read_pdf_retry (importOk : Nat → Bool) (pages : List (List Char)) :
    Nat → Nat → RetryOutcome
  | _attempt, 0 => RetryOutcome.diverged
  | attempt, fuel + 1 =>
    if importOk attempt then RetryOutcome.ok (joinBlank pages) (attempt + 1)
    else read_pdf_retry importOk pages (attempt + 1) fuel

/-- A file-system stub for runs that never reach a real file. -/
def emptyFS : FS :=
  { pathExists := false, isFile := false, suffix := "", bytes := [],
    pdfPages := [], docxParas := [] }

/-- Concrete `--check-config` arguments. -/
def ccArgs : Args :=
  { file_path := none, detail := "medium", model := "gpt-4o-mini", check_config := true }

/-- Concrete default-mode arguments naming a file. -/
def dArgs : Args :=
  { file_path := some "notes.txt", detail := "medium", model := "gpt-4o-mini",
    check_config := false }

/-- A world with the given key and package availability over the stub file
system. -/
def mkWorld (key : Option String) (avail : Bool) : World :=
  { env := { openai_api_key := key }, fs := emptyFS, openaiAvailable := avail,
    apiResponse := none, apiFailureMsg := "" }

/-- A world holding a readable one-space text file, with the key set. -/
def blankWorld : World :=
  { env := { openai_api_key := some "sk-key" },
    fs := { pathExists := true, isFile := true, suffix := ".txt", bytes := [32],
            pdfPages := [], docxParas := [] },
    openaiAvailable := true, apiResponse := none, apiFailureMsg := "" }

/-- C2: `summarize_content` applies the input-size policy with budget
100,000 characters — content of length at most the budget is sent
unchanged; longer content is cut to exactly the first 100,000 characters
with the literal truncation marker appended (so its first 100,000
characters are the original first 100,000 and its total length is the
budget plus the marker's length). -/
theorem truncation_budget_boundary (content : List Char) :
    (content.length ≤ 100000 → truncateContent content = content)
    ∧ (100000 < content.length →
        truncateContent content = content.take 100000 ++ truncationMarker
        ∧ (truncateContent content).take 100000 = content.take 100000
        ∧ (truncateContent content).length = 100000 + truncationMarker.length) := by
  constructor
  · intro h
    simp [truncateContent, max_chars]
    omega
  · intro h
    have ht : truncateContent content = content.take 100000 ++ truncationMarker := by
      simp [truncateContent, max_chars, h]
    refine ⟨ht, ?_, ?_⟩
    · rw [ht, List.take_append_eq_append_take, List.length_take]
      have hmin : min 100000 content.length = 100000 := by omega
      simp [hmin]
    · rw [ht]
      simp
      omega

/-- C2 witness: a 99,999-character text passes unchanged; a
100,001-character text is cut to its first 100,000 characters with the
marker appended. -/
theorem truncation_budget_boundary_witness :
    truncateContent (List.replicate 99999 'a') = List.replicate 99999 'a'
    ∧ truncateContent (List.replicate 100001 'a') =
        List.replicate 100000 'a' ++ truncationMarker := by
  constructor
  · exact (truncation_budget_boundary (List.replicate 99999 'a')).1
      (by simp only [List.length_replicate]; omega)
  · have h := ((truncation_budget_boundary (List.replicate 100001 'a')).2
      (by simp only [List.length_replicate]; omega)).1
    rw [h, List.take_replicate]
    have hm : min 100000 100001 = 100000 := by omega
    rw [hm]

/-- C4: the prompt builder is a pure total function on strings — the three
detail levels map to pairwise distinct, non-empty instruction strings, and
every other input returns exactly the medium instruction rather than
failing. -/
theorem prompt_levels_total (s : String) :
    (get_system_prompt "brief" ≠ "" ∧ get_system_prompt "medium" ≠ ""
      ∧ get_system_prompt "detailed" ≠ "")
    ∧ (get_system_prompt "brief" ≠ get_system_prompt "medium"
      ∧ get_system_prompt "brief" ≠ get_system_prompt "detailed"
      ∧ get_system_prompt "medium" ≠ get_system_prompt "detailed")
    ∧ (s ≠ "brief" → s ≠ "medium" → s ≠ "detailed" →
        get_system_prompt s = get_system_prompt "medium") := by
  refine ⟨by decide, by decide, ?_⟩
  intro h1 h2 h3
  simp [get_system_prompt, h1, h2, h3]

/-- C4 witness: the unrecognized level "verbose" falls back to exactly the
medium instruction. -/
theorem prompt_levels_total_witness :
    get_system_prompt "verbose" = get_system_prompt "medium" :=
  (prompt_levels_total "verbose").2.2 (by decide) (by decide) (by decide)

/-- C9: for every text, detail level and model, the request carries exactly
two ordered messages — first the system message holding the prompt
builder's output for the level, then the user message holding the fixed
literal prefix followed by the possibly-truncated text — together with the
given model identifier and the fixed low temperature 0.3; and the
summarization client's one network call carries exactly this request. -/
theorem request_two_ordered_messages (content : List Char) (level model : String) :
    (buildRequest content level model).messages.length = 2
    ∧ (buildRequest content level model).messages =
        [{ role := "system", content := (get_system_prompt level).data },
         { role := "user", content := userContentLead ++ truncateContent content }]
    ∧ (buildRequest content level model).model = model
    ∧ (buildRequest content level model).temperature = 3 / 10
    ∧ (buildRequest content level model).temperature < 1
    ∧ (∀ (args : Args) (w : World), args.detail = level → args.model = model →
        Ev.netCall (buildRequest content level model) ∈ (summarize_run content args w).2) := by
  refine ⟨rfl, rfl, rfl, rfl, by norm_num [buildRequest], ?_⟩
  intro args w hd hm
  subst hd hm
  unfold summarize_run
  cases w.apiResponse <;> simp

/-- C3 counterexample: the byte 0x90 is rejected by the strict UTF-8 codec
(a stray continuation byte) and by cp1252 (an undefined byte), yet
`read_text_file` still succeeds on it — Latin-1, second in the fallback
list, decodes every byte sequence, so the all-encodings-failed branch is
never the result and no byte sequence produces the UndecodableEncoding
failure. -/
theorem undecodable_failure_never_produced :
    utf8Decode [144] = none ∧ cp1252Decode [144] = none
    ∧ read_text_file [144] = some [Char.ofNat 144] := by
  refine ⟨rfl, by decide, rfl⟩

/-- C3 amended: the text reader tries UTF-8, Latin-1, cp1252, ISO-8859-1 in
order and returns the first successful decode; were every encoding to fail
it would return the failure and no partial text, but that branch is
unreachable — Latin-1 accepts every byte sequence, so the reader succeeds
on all inputs (with the UTF-8 decoding when the bytes are valid UTF-8 and
the Latin-1 decoding otherwise). -/
theorem read_text_file_always_decodes (bs : List Nat) :
    read_text_file bs = some ((utf8Decode bs).getD (bs.map Char.ofNat)) := by
  unfold read_text_file
  cases h : utf8Decode bs <;> simp [latin1Decode, h]

/-- C1: the install-and-retry path is not bounded at one retry.  When
the import fails on the first two attempts and succeeds on the third, the code
returns the extracted text after three attempts — it retries a second time
instead of propagating the second missing-dependency failure as fatal; and
when installation never makes the import succeed, the recursion never
returns for any amount of fuel (unbounded recursion). -/
theorem read_pdf_retry_unbounded :
    read_pdf_retry (fun n => decide (2 ≤ n)) [['x']] 0 5
        = RetryOutcome.ok (joinBlank [['x']]) 3
    ∧ ∀ (fuel attempt : Nat),
        read_pdf_retry (fun _ => false) [['x']] attempt fuel = RetryOutcome.diverged := by
  constructor
  · rfl
  · intro fuel
    induction fuel with
    | zero => intro attempt; rfl
    | succ n ih => intro attempt; simpa [read_pdf_retry] using ih (attempt + 1)

/-- Helper: the reader only touches the file and writes stderr — its event
list never contains a network call or a stdout line. -/
theorem read_file_no_net_no_out (p : String) (fs : FS) (req : ChatRequest) (s : String) :
    Ev.netCall req ∉ (read_file p fs).2 ∧ Ev.out s ∉ (read_file p fs).2 := by
  unfold read_file
  repeat' split
  all_goals simp

/-- C7: in the default summarization mode, an unset credential variable is
fatal — the run exits with status 1 after printing the guidance messages
telling how to set the credential, and no file access occurs anywhere in
the run (the credential check precedes the read). -/
theorem missing_credential_exits_before_file_access (args : Args) (w : World) (p : String)
    (hcc : args.check_config = false) (hfp : args.file_path = some p)
    (hkey : w.env.openai_api_key = none) :
    (runMain args w).1 = 1
    ∧ Ev.err "\nPlease set your API key:" ∈ (runMain args w).2
    ∧ Ev.err "  export OPENAI_API_KEY='sk-...'" ∈ (runMain args w).2
    ∧ ∀ q, Ev.fileAccess q ∉ (runMain args w).2 := by
  simp [runMain, hcc, hfp, defaultRun, pyTruthy, hkey, get_api_key_err]

/-- C7 witness: with the key unset, a concrete default-mode run exits 1
with the guidance lines and performs no file access. -/
theorem missing_credential_witness :
    dArgs.check_config = false ∧ dArgs.file_path = some "notes.txt"
    ∧ (mkWorld none true).env.openai_api_key = none
    ∧ ((runMain dArgs (mkWorld none true)).1 = 1
        ∧ Ev.err "\nPlease set your API key:" ∈ (runMain dArgs (mkWorld none true)).2
        ∧ Ev.err "  export OPENAI_API_KEY='sk-...'" ∈ (runMain dArgs (mkWorld none true)).2
        ∧ ∀ q, Ev.fileAccess q ∉ (runMain dArgs (mkWorld none true)).2) :=
  ⟨rfl, rfl, rfl,
    missing_credential_exits_before_file_access dArgs (mkWorld none true) "notes.txt"
      rfl rfl rfl⟩

/-- C6: for a path that does not exist, the reader returns no content with
the File-not-found diagnostic (and for an existing path that is not a
regular file, the not-a-file diagnostic), the run prints "File not found"
to the error stream, exits with status 1 and writes nothing to stdout —
no output block. -/
theorem nonexistent_path_aborts (args : Args) (w : World) (p : String)
    (hcc : args.check_config = false) (hfp : args.file_path = some p)
    (hkey : pyTruthy w.env.openai_api_key = true)
    (hex : w.fs.pathExists = false) :
    read_file p w.fs = (none, [Ev.fileAccess p, Ev.err ("ERROR: File not found: " ++ p)])
    ∧ (runMain args w).1 = 1
    ∧ Ev.err ("ERROR: File not found: " ++ p) ∈ (runMain args w).2
    ∧ (∀ s, Ev.out s ∉ (runMain args w).2)
    ∧ (∀ fs2 : FS, fs2.pathExists = true → fs2.isFile = false →
        read_file p fs2 =
          (none, [Ev.fileAccess p, Ev.err ("ERROR: Path is not a file: " ++ p)])) := by
  have hrf : read_file p w.fs =
      (none, [Ev.fileAccess p, Ev.err ("ERROR: File not found: " ++ p)]) := by
    simp [read_file, hex]
  refine ⟨hrf, ?_, ?_, ?_, ?_⟩
  · simp [runMain, hcc, hfp, defaultRun, hkey, hrf]
  · simp [runMain, hcc, hfp, defaultRun, hkey, hrf]
  · intro s
    simp [runMain, hcc, hfp, defaultRun, hkey, hrf]
  · intro fs2 h1 h2
    simp [read_file, h1, h2]

/-- C6 witness: a concrete run on a missing path exits 1 with the
File-not-found stderr diagnostic and an empty stdout. -/
theorem nonexistent_path_aborts_witness :
    dArgs.check_config = false ∧ dArgs.file_path = some "notes.txt"
    ∧ pyTruthy (mkWorld (some "sk-key") true).env.openai_api_key = true
    ∧ (mkWorld (some "sk-key") true).fs.pathExists = false
    ∧ (read_file "notes.txt" (mkWorld (some "sk-key") true).fs =
        (none, [Ev.fileAccess "notes.txt",
          Ev.err ("ERROR: File not found: " ++ "notes.txt")])
      ∧ (runMain dArgs (mkWorld (some "sk-key") true)).1 = 1
      ∧ Ev.err ("ERROR: File not found: " ++ "notes.txt")
          ∈ (runMain dArgs (mkWorld (some "sk-key") true)).2
      ∧ (∀ s, Ev.out s ∉ (runMain dArgs (mkWorld (some "sk-key") true)).2)
      ∧ (∀ fs2 : FS, fs2.pathExists = true → fs2.isFile = false →
          read_file "notes.txt" fs2 =
            (none, [Ev.fileAccess "notes.txt",
              Ev.err ("ERROR: Path is not a file: " ++ "notes.txt")]))) :=
  ⟨rfl, rfl, rfl, rfl,
    nonexistent_path_aborts dArgs (mkWorld (some "sk-key") true) "notes.txt"
      rfl rfl rfl rfl⟩

/-- C8: when the extracted content is empty or whitespace-only, the default
mode treats it as a failure — it prints the empty-file diagnostic to the
error stream and exits with status 1 without any network call to the
summarization client and with nothing on stdout (no result block). -/
theorem blank_content_aborts (args : Args) (w : World) (p : String) (content : List Char)
    (hcc : args.check_config = false) (hfp : args.file_path = some p)
    (hkey : pyTruthy w.env.openai_api_key = true)
    (hread : (read_file p w.fs).1 = some content)
    (hblank : isBlank content = true) :
    (runMain args w).1 = 1
    ∧ Ev.err "ERROR: File appears to be empty or unreadable" ∈ (runMain args w).2
    ∧ (∀ req, Ev.netCall req ∉ (runMain args w).2)
    ∧ (∀ s, Ev.out s ∉ (runMain args w).2) := by
  have hrun : runMain args w =
      (1, [Ev.err ("Reading file: " ++ p)] ++ (read_file p w.fs).2 ++
        [Ev.err "ERROR: File appears to be empty or unreadable"]) := by
    simp [runMain, hcc, hfp, defaultRun, hkey, hread, hblank]
  rw [hrun]
  refine ⟨rfl, by simp, ?_, ?_⟩
  · intro req
    have h := read_file_no_net_no_out p w.fs req ""
    simp [h.1]
  · intro s
    have h := read_file_no_net_no_out p w.fs (buildRequest [] "" "") s
    simp [h.2]

/-- C8 witness: a one-space text file is read successfully, found blank,
and the concrete run exits 1 with the diagnostic, no network call and an
empty stdout. -/
theorem blank_content_aborts_witness :
    dArgs.check_config = false ∧ dArgs.file_path = some "notes.txt"
    ∧ pyTruthy blankWorld.env.openai_api_key = true
    ∧ (read_file "notes.txt" blankWorld.fs).1 = some [' ']
    ∧ isBlank [' '] = true
    ∧ ((runMain dArgs blankWorld).1 = 1
      ∧ Ev.err "ERROR: File appears to be empty or unreadable"
          ∈ (runMain dArgs blankWorld).2
      ∧ (∀ req, Ev.netCall req ∉ (runMain dArgs blankWorld).2)
      ∧ (∀ s, Ev.out s ∉ (runMain dArgs blankWorld).2)) :=
  ⟨rfl, rfl, by decide, by decide, by decide,
    blank_content_aborts dArgs blankWorld "notes.txt" [' ']
      rfl rfl (by decide) (by decide) (by decide)⟩

/-- C5 counterexample: with `OPENAI_API_KEY` set to the empty string — set,
but falsy for Python's `if api_key:` — the `--check-config` run exits with
status 1, so exit status 0 is not equivalent to the variable being set. -/
theorem check_config_empty_key_exits_one :
    (runMain ccArgs (mkWorld (some "") true)).1 = 1
    ∧ (mkWorld (some "") true).env.openai_api_key ≠ none := by
  exact ⟨rfl, by simp [mkWorld]⟩

/-- C5 amended: `--check-config` performs no file access and no network
call, and its exit status is 0 exactly when the credential variable is set
to a non-empty string (Python truthiness of `os.environ.get`). -/
theorem check_config_pure_and_exit (args : Args) (w : World)
    (h : args.check_config = true) :
    ((runMain args w).1 = 0 ↔ ∃ k, w.env.openai_api_key = some k ∧ k ≠ "")
    ∧ (∀ p, Ev.fileAccess p ∉ (runMain args w).2)
    ∧ (∀ req, Ev.netCall req ∉ (runMain args w).2) := by
  rw [runMain, if_pos h]
  unfold checkConfigRun
  cases hk : w.env.openai_api_key with
  | none => simp [pyTruthy, keyNotSetEvs]
  | some k =>
    by_cases hke : k = ""
    · subst hke
      simp [pyTruthy, keyNotSetEvs]
    · simp only [pyTruthy, bne_iff_ne, ne_eq, hke, not_false_eq_true, if_true]
      refine ⟨by simp [hke], ?_, ?_⟩
      · intro p
        split <;> simp
      · intro req
        split <;> simp

/-- C5 witness: a concrete `--check-config` run with a non-empty key — no
file access, no network call, exit 0 matching the non-empty-key
condition. -/
theorem check_config_pure_and_exit_witness :
    ccArgs.check_config = true
    ∧ (((runMain ccArgs (mkWorld (some "sk-key") true)).1 = 0
          ↔ ∃ k, (mkWorld (some "sk-key") true).env.openai_api_key = some k ∧ k ≠ "")
      ∧ (∀ p, Ev.fileAccess p ∉ (runMain ccArgs (mkWorld (some "sk-key") true)).2)
      ∧ (∀ req, Ev.netCall req ∉ (runMain ccArgs (mkWorld (some "sk-key") true)).2)) :=
  ⟨rfl, check_config_pure_and_exit ccArgs (mkWorld (some "sk-key") true) rfl⟩

/-- C10 counterexample: with the variable set to the empty string the
`--check-config` exit status is 1 whether or not the OpenAI package
is importable — a set-but-empty credential refutes "set implies exit 0". -/
theorem check_config_empty_key_both_avail :
    (runMain ccArgs (mkWorld (some "") false)).1 = 1
    ∧ (runMain ccArgs (mkWorld (some "") true)).1 = 1
    ∧ (mkWorld (some "") false).env.openai_api_key ≠ none := by
  exact ⟨rfl, rfl, by simp [mkWorld]⟩

/-- C10 amended: in `--check-config` mode, whenever the credential variable
is set to a non-empty string the run exits 0 regardless of whether the
OpenAI package is importable, and package availability changes only the
second printed status line. -/
theorem check_config_avail_only_status_line (args : Args) (w : World) (k : String)
    (h : args.check_config = true) (hk : w.env.openai_api_key = some k)
    (hne : k ≠ "") :
    (runMain args w).1 = 0
    ∧ (runMain args w).2 =
        [Ev.out "✓ OPENAI_API_KEY is set",
         Ev.out (if w.openaiAvailable then "✓ OpenAI package is available"
           else "✗ OpenAI package not installed (will auto-install when needed)")] := by
  rw [runMain, if_pos h]
  unfold checkConfigRun
  rw [hk]
  simp [pyTruthy, hne]

/-- C10 witness: a concrete run with a non-empty key and the package
not importable still exits 0, and the trace is the two status lines with the
not-installed variant. -/
theorem check_config_avail_only_status_line_witness :
    ccArgs.check_config = true
    ∧ (mkWorld (some "sk-key") false).env.openai_api_key = some "sk-key"
    ∧ "sk-key" ≠ ""
    ∧ ((runMain ccArgs (mkWorld (some "sk-key") false)).1 = 0
      ∧ (runMain ccArgs (mkWorld (some "sk-key") false)).2 =
          [Ev.out "✓ OPENAI_API_KEY is set",
           Ev.out (if (mkWorld (some "sk-key") false).openaiAvailable then
               "✓ OpenAI package is available"
             else "✗ OpenAI package not installed (will auto-install when needed)")]) :=
  ⟨rfl, rfl, by decide,
    check_config_avail_only_status_line ccArgs (mkWorld (some "sk-key") false) "sk-key"
      rfl rfl (by decide)⟩
